import Mathlib

/-!
Verification development for the ProfileMeister section generation and
refinement pipeline.

The definitions below are a shallow embedding of the Python sources:

* `cached_generate_content` embeds `src/api_client.py` (the resilient
  invoker: response cache, global throttle, timeout budget, exponential
  backoff on rate-limit errors).  Wall-clock readings are modelled by
  explicit per-attempt elapsed-time values, and the model call boundary
  (`model.generate_content`) by a per-attempt outcome.
* `process_section` embeds `src/section_processor.py` (the per-topic
  pipeline: cache check, initial generation, repair, three refinement
  stages with per-stage error isolation, persistence, timeout fallback).
* `repair_html`, `save_section`, `load_section` model the missing
  `html_generator.py` module from the spec (the file is imported by the
  sources but not part of the source set).
* `PoolStep` models the bounded worker pool used by `src/app.py`
  (`ThreadPoolExecutor(max_workers=MAX_WORKERS)`) as a step relation.
-/

/-! ## Python exceptions

`str(e)` of an exception is its message; `isinstance(e, TimeoutError)`
is the `timeoutError` constructor.  The rate-limit test in the source is
`"429" in str(e)`. -/

inductive PyErr where
  | timeoutError (msg : String)
  | otherError (msg : String)
deriving DecidableEq, Repr

def PyErr.msg : PyErr → String
  | .timeoutError m => m
  | .otherError m => m

def PyErr.isTimeout : PyErr → Bool
  | .timeoutError _ => true
  | .otherError _ => false

/-- Python's substring test `pat in s`, on character lists. -/
def hasSub (pat : List Char) : List Char → Bool
  | [] => pat.isEmpty
  | c :: rest => pat.isPrefixOf (c :: rest) || hasSub pat rest

/-- The source's rate-limit classification: `"429" in str(e)`. -/
def is429 (e : PyErr) : Bool :=
  hasSub "429".toList e.msg.toList

/-! ## Key-value maps

Python `dict` lookup and assignment, for the response cache
(`st.session_state.api_cache`) and for the per-topic section store. -/

def lookupKV (k : String) : List (String × String) → Option String
  | [] => none
  | (k', v) :: rest => if k' = k then some v else lookupKV k rest

def upsert (k v : String) : List (String × String) → List (String × String)
  | [] => [(k, v)]
  | (k', v') :: rest => if k' = k then (k, v) :: rest else (k', v') :: upsert k v rest

/-! ## Resilient invoker (`src/api_client.py`) -/

/-- The source computes `hashlib.md5((model_name + str(prompt)).encode()).hexdigest()`;
the digest is modelled by the digested text itself — the code relies only on the
key being a deterministic function of model name and prompt. -/
def get_cache_key (modelName prompt : String) : String :=
  modelName ++ prompt

instance : DecidableEq (Except PyErr String) := fun x y =>
  match x, y with
  | .ok a, .ok b => decidable_of_iff (a = b) (by simp)
  | .error a, .error b => decidable_of_iff (a = b) (by simp)
  | .ok _, .error _ => isFalse (fun h => by cases h)
  | .error _, .ok _ => isFalse (fun h => by cases h)

/-- One loop iteration's view of the outside world: the three `time.time()`
readings taken in that iteration (as seconds elapsed since `start_time`:
at the loop-head budget check, at the per-attempt timeout computation, and
inside the `except` handler), and the model call's outcome. -/
structure Attempt where
  tCheck : Nat
  tAttempt : Nat
  tExcept : Nat
  outcome : Except PyErr String
deriving DecidableEq, Repr

inductive CGCOutcome where
  /-- the function returned a response with this `.text` -/
  | succeeded (text : String)
  /-- the function raised this exception -/
  | failed (e : PyErr)
  /-- the retry loop ran zero iterations (`max_retries = 0`), Python returns `None` -/
  | exhausted
deriving DecidableEq, Repr

/-- Observable result of one `cached_generate_content` call: its outcome, the
number of `model.generate_content` invocations, the `2^retry` bases of the
backoff sleeps performed, the response cache afterwards, and whether the
global 1-second throttle delay was applied. -/
structure CGCRun where
  outcome : CGCOutcome
  modelCalls : Nat
  backoffs : List Nat
  cacheAfter : List (String × String)
  throttled : Bool
deriving DecidableEq, Repr

def timeoutMsg (budget : Nat) : String :=
  "Request timed out after " ++ toString budget ++ " seconds"

/-- The `for retry in range(max_retries)` loop of `cached_generate_content`,
lines 72-121 of `api_client.py`.  `fuel` is the number of iterations left
(`max_retries - retry`).  The guard `retry < max_retries - 1` is over Python
ints and is written `retry + 1 < maxRetries`, which agrees with it for every
natural `maxRetries` including 0. -/
def cgcLoop (attempts : Nat → Attempt) (budget maxRetries : Nat) (key : String) :
    Nat → Nat → List (String × String) → CGCRun
  | 0, _, cache => ⟨.exhausted, 0, [], cache, true⟩
  | fuel + 1, retry, cache =>
    let a := attempts retry
    if budget < a.tCheck then
      ⟨.failed (.timeoutError (timeoutMsg budget)), 0, [], cache, true⟩
    else if min (30 * ((retry : Int) + 1)) ((budget : Int) - (a.tAttempt : Int)) ≤ 0 then
      -- `raise TimeoutError("Not enough time left for another attempt")` is caught
      -- by the handler below, whose `isinstance(e, TimeoutError)` branch re-raises
      -- it as `TimeoutError(timeoutMsg budget)`; the net effect is written directly.
      ⟨.failed (.timeoutError (timeoutMsg budget)), 0, [], cache, true⟩
    else
      match a.outcome with
      | .ok t => ⟨.succeeded t, 1, [], upsert key t cache, true⟩
      | .error e =>
        if e.isTimeout || budget < a.tExcept then
          ⟨.failed (.timeoutError (timeoutMsg budget)), 1, [], cache, true⟩
        else if is429 e && retry + 1 < maxRetries then
          let rest := cgcLoop attempts budget maxRetries key fuel (retry + 1) cache
          ⟨rest.outcome, 1 + rest.modelCalls, 2 ^ retry :: rest.backoffs,
            rest.cacheAfter, true⟩
        else
          ⟨.failed e, 1, [], cache, true⟩

/-- `cached_generate_content(model, prompt, section_num, cache_enabled, max_retries, timeout)`
from `src/api_client.py`.  `sectionNum` is used by the source only for logging. -/
def cached_generate_content (modelName prompt : String) (_sectionNum : Option Nat)
    (cacheEnabled : Bool) (maxRetries timeout : Nat)
    (cache : List (String × String)) (attempts : Nat → Attempt) : CGCRun :=
  if !cacheEnabled then
    -- `return model.generate_content(prompt)`: one direct call, errors propagate.
    match (attempts 0).outcome with
    | .ok t => ⟨.succeeded t, 1, [], cache, false⟩
    | .error e => ⟨.failed e, 1, [], cache, false⟩
  else
    let key := get_cache_key modelName prompt
    match lookupKV key cache with
    | some t => ⟨.succeeded t, 0, [], cache, false⟩
    | none => cgcLoop attempts timeout maxRetries key maxRetries 0 cache

/-! ## Structural repairer and section store

Modelled from the spec: the sources import `repair_html`, `validate_html`,
`save_section` and `load_section` from `html_generator.py`, which is not part
of the source set.  Section 4.3 of the spec describes `repair` as a
deterministic total function producing a single enclosing container tagged
with the topic identifier, exactly one heading with the topic number and
title, stripping code-fence markers, never duplicating the heading inside the
body, and falling back to a minimal valid fragment on irreparable input. -/

/-- Boolean test that `pat` begins `s`, on character lists. -/
def startsWithChars : List Char → List Char → Bool
  | [], _ => true
  | _ :: _, [] => false
  | a :: as, b :: bs => a == b && startsWithChars as bs

/-- Boolean test that `pat` ends `s`, on character lists. -/
def endsWithChars (pat s : List Char) : Bool :=
  startsWithChars pat.reverse s.reverse

/-- Split on newline characters; always returns at least one line and the
lines themselves contain no newline. -/
def splitLines : List Char → List (List Char)
  | [] => [[]]
  | c :: rest =>
    if c = '\n' then [] :: splitLines rest
    else
      match splitLines rest with
      | [] => [[c]]
      | l :: ls => (c :: l) :: ls

/-- Rejoin lines with newline characters; left inverse of `splitLines`. -/
def joinLines : List (List Char) → List Char
  | [] => []
  | [l] => l
  | l :: l' :: ls => l ++ '\n' :: joinLines (l' :: ls)

/-- Modelled from the spec: a code-fence marker line, i.e. a line whose first
non-space characters are a markdown fence. -/
def isFence (l : List Char) : Bool :=
  startsWithChars "```".toList (l.dropWhile (· == ' '))

/-- The single heading the repairer guarantees: topic number and title. -/
def headingLine (numStr title : List Char) : List Char :=
  '<' :: 'h' :: '2' :: '>' :: (numStr ++ '.' :: ' ' :: (title ++ "</h2>".toList))

/-- Modelled from the spec: the minimal valid fallback fragment body used when
no body text can be salvaged. -/
def fallbackLine : List Char :=
  "<p>No content available.</p>".toList

/-- A body line survives repair when it is neither a code-fence marker nor a
duplicate of the heading. -/
def keepLine (hl l : List Char) : Bool :=
  if isFence l then false else if l = hl then false else true

/-- Normalized body lines: fence markers and duplicated headings dropped, the
fallback fragment substituted when nothing remains. -/
def normLines (hl : List Char) (s : List Char) : List (List Char) :=
  match (splitLines s).filter (keepLine hl) with
  | [] => [fallbackLine]
  | l :: ls => l :: ls

def normBody (hl : List Char) (s : List Char) : List Char :=
  joinLines (normLines hl s)

/-- The opening of the enclosing container tagged with the topic identifier. -/
def divOpen (numStr : List Char) : List Char :=
  "<div class=\"section\" id=\"section-".toList ++ numStr ++ "\">".toList

/-- Everything the repairer emits before the body. -/
def wrapPre (numStr title : List Char) : List Char :=
  divOpen numStr ++ '\n' :: (headingLine numStr title ++ ['\n'])

/-- Everything the repairer emits after the body. -/
def wrapPost : List Char :=
  '\n' :: "</div>".toList

/-- Strip an existing enclosing container produced by a previous repair, so
that repairing repaired markup does not nest containers or duplicate the
heading. -/
def extractBody (p q s : List Char) : List Char :=
  if startsWithChars p s && endsWithChars q s && decide (p.length + q.length ≤ s.length)
  then (s.drop p.length).take (s.length - p.length - q.length)
  else s

def repairChars (numStr title s : List Char) : List Char :=
  wrapPre numStr title ++
    normBody (headingLine numStr title) (extractBody (wrapPre numStr title) wrapPost s) ++
    wrapPost

/-- Modelled from the spec: `repair_html(section_content, section_num,
section_title)` from the missing `html_generator.py`. -/
def repair_html (content : String) (sectionNum : Nat) (sectionTitle : String) : String :=
  ⟨repairChars (toString sectionNum).toList sectionTitle.toList content.toList⟩

/-- Modelled from the spec: the per-topic persisted section store, a keyed
read/write of named text artifacts (`save_section`). -/
def save_section (store : List (String × String)) (name content : String) :
    List (String × String) :=
  upsert name content store

/-- Modelled from the spec: keyed read of a named text artifact
(`load_section`), `none` when the artifact does not exist. -/
def load_section (store : List (String × String)) (name : String) : Option String :=
  lookupKV name store

/-- Python truthiness of `load_section`'s result: `None` and the empty string
are falsy. -/
def truthy : Option String → Bool
  | none => false
  | some s => !s.isEmpty

/-! ## Section pipeline (`src/section_processor.py`) -/

/-- The outside world as seen by one `process_section` run: the persisted
store for the profile folder, the net outcome of the initial generation call
and of each refinement stage (each stage is a pair of resilient-invoker calls
inside its own `try`, abstracted to the improved content it would produce or
the exception it would raise), and the four `time.time() - section_start_time`
readings at the pipeline's timeout checkpoints (after initial generation and
before each stage). -/
structure SectionEnv where
  store : List (String × String)
  genOutcome : Except PyErr String
  factOutcome : Except PyErr String
  insightOutcome : Except PyErr String
  questionOutcome : Except PyErr String
  tGen : Nat
  tFact : Nat
  tInsight : Nat
  tQuestion : Nat
deriving DecidableEq, Repr

/-- Observable result of one `process_section` run: the returned content, the
store afterwards, the number of resilient-invoker invocations made for the
initial generation, the refinement stages that performed their model calls,
and whether the outer `except TimeoutError` handler fired. -/
structure SPRun where
  result : String
  store : List (String × String)
  generationCalls : Nat
  stagesRun : List String
  timedOut : Bool
deriving DecidableEq, Repr

/-- `section_timeout = 600`, the 10-minute per-section budget. -/
def section_timeout : Nat := 600

/-- One refinement stage of `process_section`: the stage's `try` block first
checks the per-section timeout (raising, which its own `except` swallows,
leaving the best content unchanged), otherwise runs the stage's calls; a
completed stage's repaired output unconditionally replaces the best content,
and a raised stage leaves it unchanged. -/
def stageStep (sectionNum : Nat) (sectionTitle : String) (elapsed : Nat)
    (outcome : Except PyErr String) (best : String) : String :=
  if section_timeout < elapsed then best
  else
    match outcome with
    | .ok improved => repair_html improved sectionNum sectionTitle
    | .error _ => best

/-- The fragment returned when the initial generation API call raises
(lines 108-116 of `section_processor.py`), whitespace as in the source. -/
def api_error_fragment (sectionNum : Nat) (sectionTitle msg : String) : String :=
  "\n            <div class=\"section\" id=\"section-" ++ toString sectionNum ++
    "\">\n              <h2>" ++ toString sectionNum ++ ". " ++ sectionTitle ++
    "</h2>\n              <p>Error generating content: " ++ msg ++
    "</p>\n            </div>\n            "

/-- The fragment returned by the outer `except TimeoutError` handler
(lines 244-253 of `section_processor.py`), with
`str(e) = "Section N processing exceeded timeout"`. -/
def timeout_fragment (sectionNum : Nat) (sectionTitle : String) : String :=
  "\n        <div class=\"section\" id=\"section-" ++ toString sectionNum ++
    "\">\n          <h2>" ++ toString sectionNum ++ ". " ++ sectionTitle ++
    "</h2>\n          <p class=\"error\">ERROR: Could not process section " ++
    toString sectionNum ++ ": Section " ++ toString sectionNum ++
    " processing exceeded timeout</p>\n        </div>\n        "

/-- `process_section(section, documents, persona, analysis_specs, output_format,
profile_folder, refinement_iterations, q_number)` from
`src/section_processor.py`.  Prompt construction only feeds the model call
boundary, which is abstracted into `env`; `q_number` is consumed by the
question stage inside `env.questionOutcome`. -/
def process_section (sectionNum : Nat) (sectionTitle : String)
    (refinementIterations : Int) (env : SectionEnv) : SPRun :=
  let refinedKey := toString sectionNum ++ "_refined"
  -- `if existing_refined_content:` — Python truthiness, so an empty artifact
  -- does not short-circuit.
  if truthy (load_section env.store refinedKey) then
    ⟨(load_section env.store refinedKey).getD "", env.store, 0, [], false⟩
  else
    match env.genOutcome with
    | .error e =>
      -- inner `except` around the initial API call returns the fragment directly
      ⟨api_error_fragment sectionNum sectionTitle e.msg, env.store, 1, [], false⟩
    | .ok raw =>
      let content := repair_html raw sectionNum sectionTitle
      if section_timeout < env.tGen then
        -- the raise at line 129 is caught by the outer `except TimeoutError`
        ⟨timeout_fragment sectionNum sectionTitle, env.store, 1, [], true⟩
      else
        let store1 := save_section env.store (toString sectionNum) content
        if refinementIterations ≤ 0 then
          let best := repair_html content sectionNum sectionTitle
          ⟨best, save_section store1 refinedKey best, 1, [], false⟩
        else
          let b1 := stageStep sectionNum sectionTitle env.tFact env.factOutcome content
          let b2 := stageStep sectionNum sectionTitle env.tInsight env.insightOutcome b1
          let b3 := stageStep sectionNum sectionTitle env.tQuestion env.questionOutcome b2
          let final := repair_html b3 sectionNum sectionTitle
          ⟨final, save_section store1 refinedKey final, 1,
            (if section_timeout < env.tFact then [] else ["fact"]) ++
              (if section_timeout < env.tInsight then [] else ["insight"]) ++
              (if section_timeout < env.tQuestion then [] else ["question"]),
            false⟩

/-! ## Bounded worker pool (`src/app.py`)

Modelled from the spec: `process_documents` fans the section pipelines out
with `ThreadPoolExecutor(max_workers=MAX_WORKERS)`; the executor itself is
library code, specified in sections 4.6 and 5 as a fixed-size worker pool.
Each topic is a task; a task is started only while fewer than `W` tasks are
active, and an active task may enter and leave the model call boundary before
finishing. -/

inductive TaskState where
  | pending
  | active (inCall : Bool)
  | done
deriving DecidableEq, Repr

abbrev PoolState := List TaskState

def isActive : TaskState → Bool
  | .active _ => true
  | _ => false

def isInCall : TaskState → Bool
  | .active true => true
  | _ => false

def activeCount (s : PoolState) : Nat := s.countP isActive

def inCallCount (s : PoolState) : Nat := s.countP isInCall

/-- One scheduler step of the bounded pool with `W` workers. -/
inductive PoolStep (W : Nat) : PoolState → PoolState → Prop
  | start (l r : PoolState) :
      activeCount (l ++ TaskState.pending :: r) < W →
      PoolStep W (l ++ TaskState.pending :: r) (l ++ TaskState.active false :: r)
  | enterCall (l r : PoolState) :
      PoolStep W (l ++ TaskState.active false :: r) (l ++ TaskState.active true :: r)
  | exitCall (l r : PoolState) :
      PoolStep W (l ++ TaskState.active true :: r) (l ++ TaskState.active false :: r)
  | finish (l r : PoolState) :
      PoolStep W (l ++ TaskState.active false :: r) (l ++ TaskState.done :: r)

/-- The run's initial pool state: every one of the `n` topics pending. -/
def initPool (n : Nat) : PoolState := List.replicate n TaskState.pending

/-- States an `n`-topic run with `W` workers can reach. -/
def PoolReachable (W n : Nat) (s : PoolState) : Prop :=
  Relation.ReflTransGen (PoolStep W) (initPool n) s

/-! ## Helper lemmas: character-list splitting, joining and wrapping -/

theorem startsWithChars_append (p t : List Char) : startsWithChars p (p ++ t) = true := by
  induction p with
  | nil => rfl
  | cons a as ih => simp [startsWithChars, ih]

theorem endsWithChars_append (q t : List Char) : endsWithChars q (t ++ q) = true := by
  rw [endsWithChars, List.reverse_append]
  exact startsWithChars_append q.reverse t.reverse

theorem extractBody_wrap (p q b : List Char) : extractBody p q (p ++ b ++ q) = b := by
  have hpre : startsWithChars p (p ++ b ++ q) = true := by
    rw [List.append_assoc]; exact startsWithChars_append p (b ++ q)
  have hsuf : endsWithChars q (p ++ b ++ q) = true := endsWithChars_append q (p ++ b)
  have hlen : p.length + q.length ≤ (p ++ b ++ q).length := by
    simp only [List.length_append]; omega
  have hcond : (startsWithChars p (p ++ b ++ q) && endsWithChars q (p ++ b ++ q) &&
      decide (p.length + q.length ≤ (p ++ b ++ q).length)) = true := by
    rw [hpre, hsuf, decide_eq_true hlen]; rfl
  rw [extractBody, if_pos hcond]
  rw [List.append_assoc, List.drop_left]
  have hlen2 : (p ++ (b ++ q)).length - p.length - q.length = b.length := by
    simp only [List.length_append]; omega
  rw [hlen2]
  exact List.take_left b q

theorem splitLines_ne_nil (x : List Char) : splitLines x ≠ [] := by
  match x with
  | [] => simp [splitLines]
  | c :: rest =>
    rw [splitLines]
    split
    · simp
    · split <;> simp

theorem splitLines_no_newline (x : List Char) : ∀ l ∈ splitLines x, '\n' ∉ l := by
  induction x with
  | nil => intro l hl; simp [splitLines] at hl; simp [hl]
  | cons c rest ih =>
    intro l hl
    rw [splitLines] at hl
    split at hl
    · rcases List.mem_cons.mp hl with h | h
      · simp [h]
      · exact ih l h
    · rename_i hc
      split at hl
      · rename_i heq
        exact absurd heq (splitLines_ne_nil rest)
      · rename_i l0 ls heq
        rcases List.mem_cons.mp hl with h | h
        · subst h
          intro hmem
          rcases List.mem_cons.mp hmem with h' | h'
          · exact hc h'.symm
          · have hl0 : l0 ∈ splitLines rest := by
              rw [heq]; exact List.mem_cons_self l0 ls
            exact ih l0 hl0 h'
        · have hmem : l ∈ splitLines rest := by
            rw [heq]; exact List.mem_cons_of_mem l0 h
          exact ih l hmem

theorem splitLines_single (l : List Char) (h : '\n' ∉ l) : splitLines l = [l] := by
  induction l with
  | nil => rfl
  | cons c rest ih =>
    have hc : ¬(c = '\n') := fun hh => h (hh ▸ List.mem_cons_self c rest)
    have hr : splitLines rest = [rest] := ih (fun hm => h (List.mem_cons_of_mem c hm))
    rw [splitLines, if_neg hc, hr]

theorem splitLines_append_cons (l : List Char) (h : '\n' ∉ l) (t : List Char) :
    splitLines (l ++ '\n' :: t) = l :: splitLines t := by
  induction l with
  | nil => simp [splitLines]
  | cons c rest ih =>
    have hc : ¬(c = '\n') := fun hh => h (hh ▸ List.mem_cons_self c rest)
    have hr := ih (fun hm => h (List.mem_cons_of_mem c hm))
    rw [List.cons_append, splitLines, if_neg hc, hr]

theorem splitLines_joinLines (L : List (List Char)) (hL : L ≠ [])
    (h : ∀ l ∈ L, '\n' ∉ l) : splitLines (joinLines L) = L := by
  induction L with
  | nil => exact absurd rfl hL
  | cons l L' ih =>
    match L' with
    | [] =>
      rw [joinLines]
      exact splitLines_single l (h l (List.mem_cons_self l []))
    | l' :: L'' =>
      rw [joinLines, splitLines_append_cons l (h l (List.mem_cons_self l _))]
      rw [ih (by simp) (fun a ha => h a (List.mem_cons_of_mem l ha))]

/-! ## Idempotence of the structural repairer -/

theorem fallback_ne_heading (ns t : List Char) : fallbackLine ≠ headingLine ns t := by
  intro h
  have h1 : fallbackLine[1]? = some 'p' := by decide
  rw [h] at h1
  simp [headingLine] at h1

theorem keep_fallback (ns t : List Char) :
    keepLine (headingLine ns t) fallbackLine = true := by
  have h1 : isFence fallbackLine = false := by decide
  simp [keepLine, h1, fallback_ne_heading ns t]

theorem normLines_ne_nil (hl s : List Char) : normLines hl s ≠ [] := by
  rw [normLines]
  split <;> simp

theorem normLines_no_newline (hl s : List Char) : ∀ l ∈ normLines hl s, '\n' ∉ l := by
  intro l hmem
  rw [normLines] at hmem
  split at hmem
  · simp at hmem
    rw [hmem]
    decide
  · rename_i l0 ls heq
    have : l ∈ (splitLines s).filter (keepLine hl) := by
      rw [heq]; exact hmem
    exact splitLines_no_newline s l (List.mem_of_mem_filter this)

theorem normLines_keep (ns t s : List Char) :
    ∀ l ∈ normLines (headingLine ns t) s, keepLine (headingLine ns t) l = true := by
  intro l hmem
  rw [normLines] at hmem
  split at hmem
  · simp at hmem
    rw [hmem]
    exact keep_fallback ns t
  · rename_i l0 ls heq
    have : l ∈ (splitLines s).filter (keepLine (headingLine ns t)) := by
      rw [heq]; exact hmem
    exact List.of_mem_filter this

theorem normBody_idem (ns t s : List Char) :
    normBody (headingLine ns t) (normBody (headingLine ns t) s) =
      normBody (headingLine ns t) s := by
  have hsplit : splitLines (joinLines (normLines (headingLine ns t) s)) =
      normLines (headingLine ns t) s :=
    splitLines_joinLines _ (normLines_ne_nil _ s) (normLines_no_newline _ s)
  have hfilter : (normLines (headingLine ns t) s).filter (keepLine (headingLine ns t)) =
      normLines (headingLine ns t) s :=
    List.filter_eq_self.mpr (fun a ha => normLines_keep ns t s a ha)
  show joinLines (normLines (headingLine ns t) (joinLines (normLines (headingLine ns t) s))) =
    joinLines (normLines (headingLine ns t) s)
  congr 1
  rw [normLines, hsplit, hfilter]
  cases hcase : normLines (headingLine ns t) s with
  | nil => exact absurd hcase (normLines_ne_nil _ s)
  | cons a as => simp

theorem repairChars_idem (ns t s : List Char) :
    repairChars ns t (repairChars ns t s) = repairChars ns t s := by
  rw [repairChars, repairChars, extractBody_wrap, normBody_idem]

/-- Idempotence of the repairer at the `String` boundary; shared by the claims
about the repairer and about the zero-iteration pipeline. -/
theorem repair_html_idem (x : String) (num : Nat) (title : String) :
    repair_html (repair_html x num title) num title = repair_html x num title := by
  simp only [repair_html]
  exact congrArg String.mk (repairChars_idem _ _ _)

/-! ## Helper lemmas: one iteration of the retry loop -/

theorem cgcLoop_ok (attempts : Nat → Attempt) (budget maxRetries : Nat) (key : String)
    (cache : List (String × String)) (fuel retry : Nat) (t : String)
    (h1 : (attempts retry).tCheck ≤ budget) (h2 : (attempts retry).tAttempt < budget)
    (hout : (attempts retry).outcome = .ok t) :
    cgcLoop attempts budget maxRetries key (fuel + 1) retry cache =
      ⟨.succeeded t, 1, [], upsert key t cache, true⟩ := by
  have hmin : ¬(min (30 * ((retry : Int) + 1)) ((budget : Int) - ((attempts retry).tAttempt : Int)) ≤ 0) := by
    rw [min_le_iff]
    push_neg
    constructor <;> omega
  simp only [cgcLoop]
  rw [if_neg (by omega : ¬(budget < (attempts retry).tCheck)), if_neg hmin, hout]

theorem cgcLoop_raise (attempts : Nat → Attempt) (budget maxRetries : Nat) (key : String)
    (cache : List (String × String)) (fuel retry : Nat) (e : PyErr)
    (h1 : (attempts retry).tCheck ≤ budget) (h2 : (attempts retry).tAttempt < budget)
    (h3 : (attempts retry).tExcept ≤ budget)
    (hout : (attempts retry).outcome = .error e) (hnt : e.isTimeout = false)
    (hstop : (is429 e && decide (retry + 1 < maxRetries)) = false) :
    cgcLoop attempts budget maxRetries key (fuel + 1) retry cache =
      ⟨.failed e, 1, [], cache, true⟩ := by
  have hmin : ¬(min (30 * ((retry : Int) + 1)) ((budget : Int) - ((attempts retry).tAttempt : Int)) ≤ 0) := by
    rw [min_le_iff]
    push_neg
    constructor <;> omega
  simp only [cgcLoop]
  rw [if_neg (by omega : ¬(budget < (attempts retry).tCheck)), if_neg hmin, hout]
  have hcatch : (e.isTimeout || decide (budget < (attempts retry).tExcept)) = false := by
    rw [hnt, decide_eq_false (by omega : ¬(budget < (attempts retry).tExcept))]
    rfl
  simp [hcatch, hstop]

theorem cgcLoop_timeout_like (attempts : Nat → Attempt) (budget maxRetries : Nat) (key : String)
    (cache : List (String × String)) (fuel retry : Nat) (e : PyErr)
    (h1 : (attempts retry).tCheck ≤ budget) (h2 : (attempts retry).tAttempt < budget)
    (hout : (attempts retry).outcome = .error e)
    (ht : (e.isTimeout || decide (budget < (attempts retry).tExcept)) = true) :
    cgcLoop attempts budget maxRetries key (fuel + 1) retry cache =
      ⟨.failed (.timeoutError (timeoutMsg budget)), 1, [], cache, true⟩ := by
  have hmin : ¬(min (30 * ((retry : Int) + 1)) ((budget : Int) - ((attempts retry).tAttempt : Int)) ≤ 0) := by
    rw [min_le_iff]
    push_neg
    constructor <;> omega
  simp only [cgcLoop]
  rw [if_neg (by omega : ¬(budget < (attempts retry).tCheck)), if_neg hmin, hout]
  simp [ht]

theorem cgcLoop_retry (attempts : Nat → Attempt) (budget maxRetries : Nat) (key : String)
    (cache : List (String × String)) (fuel retry : Nat) (e : PyErr)
    (h1 : (attempts retry).tCheck ≤ budget) (h2 : (attempts retry).tAttempt < budget)
    (h3 : (attempts retry).tExcept ≤ budget)
    (hout : (attempts retry).outcome = .error e) (hnt : e.isTimeout = false)
    (h429 : is429 e = true) (hlt : retry + 1 < maxRetries) :
    cgcLoop attempts budget maxRetries key (fuel + 1) retry cache =
      ⟨(cgcLoop attempts budget maxRetries key fuel (retry + 1) cache).outcome,
        1 + (cgcLoop attempts budget maxRetries key fuel (retry + 1) cache).modelCalls,
        2 ^ retry :: (cgcLoop attempts budget maxRetries key fuel (retry + 1) cache).backoffs,
        (cgcLoop attempts budget maxRetries key fuel (retry + 1) cache).cacheAfter, true⟩ := by
  have hmin : ¬(min (30 * ((retry : Int) + 1)) ((budget : Int) - ((attempts retry).tAttempt : Int)) ≤ 0) := by
    rw [min_le_iff]
    push_neg
    constructor <;> omega
  simp only [cgcLoop]
  rw [if_neg (by omega : ¬(budget < (attempts retry).tCheck)), if_neg hmin, hout]
  have hcatch : (e.isTimeout || decide (budget < (attempts retry).tExcept)) = false := by
    rw [hnt, decide_eq_false (by omega : ¬(budget < (attempts retry).tExcept))]
    rfl
  simp [hcatch, h429, decide_eq_true hlt]

/-- A run of consecutive in-budget rate-limit failures strictly shorter than
the remaining iteration budget, followed by an in-budget success, is fully
absorbed by the backoff loop. -/
theorem cgcLoop_absorbs (attempts : Nat → Attempt) (budget maxRetries : Nat) (key : String)
    (t : String) :
    ∀ (k fuel retry : Nat) (cache : List (String × String)),
      retry + fuel = maxRetries → k < fuel →
      (∀ i, i < k → ∃ m, (attempts (retry + i)).outcome = .error (.otherError m) ∧
          is429 (.otherError m) = true ∧
          (attempts (retry + i)).tCheck ≤ budget ∧
          (attempts (retry + i)).tAttempt < budget ∧
          (attempts (retry + i)).tExcept ≤ budget) →
      (attempts (retry + k)).outcome = .ok t →
      (attempts (retry + k)).tCheck ≤ budget →
      (attempts (retry + k)).tAttempt < budget →
      (cgcLoop attempts budget maxRetries key fuel retry cache).outcome = .succeeded t := by
  intro k
  induction k with
  | zero =>
    intro fuel retry cache hsum hk h429 hok h1 h2
    obtain ⟨f, rfl⟩ : ∃ f, fuel = f + 1 := ⟨fuel - 1, by omega⟩
    simp only [Nat.add_zero] at hok h1 h2
    rw [cgcLoop_ok attempts budget maxRetries key cache f retry t h1 h2 hok]
  | succ k ih =>
    intro fuel retry cache hsum hk h429 hok h1 h2
    obtain ⟨f, rfl⟩ : ∃ f, fuel = f + 1 := ⟨fuel - 1, by omega⟩
    obtain ⟨m, hm, hm429, ha1, ha2, ha3⟩ := h429 0 (by omega)
    simp only [Nat.add_zero] at hm hm429 ha1 ha2 ha3
    have hlt : retry + 1 < maxRetries := by omega
    rw [cgcLoop_retry attempts budget maxRetries key cache f retry (.otherError m)
      ha1 ha2 ha3 hm rfl hm429 hlt]
    have h429' : ∀ i, i < k → ∃ m, (attempts (retry + 1 + i)).outcome = .error (.otherError m) ∧
        is429 (.otherError m) = true ∧
        (attempts (retry + 1 + i)).tCheck ≤ budget ∧
        (attempts (retry + 1 + i)).tAttempt < budget ∧
        (attempts (retry + 1 + i)).tExcept ≤ budget := by
      intro i hi
      have := h429 (i + 1) (by omega)
      rwa [show retry + (i + 1) = retry + 1 + i by omega] at this
    have hshift : retry + (k + 1) = retry + 1 + k := by omega
    rw [hshift] at hok h1 h2
    exact ih f (retry + 1) cache (by omega) (by omega) h429' hok h1 h2

/-- When the cache is enabled and misses, the wrapper applies the throttle and
enters the retry loop. -/
theorem cached_generate_content_miss (modelName prompt : String) (sn : Option Nat)
    (maxRetries timeout : Nat) (cache : List (String × String)) (attempts : Nat → Attempt)
    (hmiss : lookupKV (get_cache_key modelName prompt) cache = none) :
    cached_generate_content modelName prompt sn true maxRetries timeout cache attempts =
      cgcLoop attempts timeout maxRetries (get_cache_key modelName prompt) maxRetries 0 cache := by
  rw [cached_generate_content]
  simp [hmiss]

/-! ## Claims about the resilient invoker -/

/-- C7: for every cache key present in the response cache, invoking the
resilient invoker with that key's model identity and request returns the
cached response text immediately: no model call is made, no backoff sleep and
no global throttle delay are applied, and the cache is not mutated. -/
theorem C7_cache_hit_short_circuits (modelName prompt : String) (sn : Option Nat)
    (maxRetries timeout : Nat) (cache : List (String × String)) (attempts : Nat → Attempt)
    (t : String) (h : lookupKV (get_cache_key modelName prompt) cache = some t) :
    cached_generate_content modelName prompt sn true maxRetries timeout cache attempts =
      ⟨.succeeded t, 0, [], cache, false⟩ := by
  rw [cached_generate_content]
  simp [h]

/-- Witness for `C7_cache_hit_short_circuits` at a concrete cache. -/
theorem C7_cache_hit_short_circuits_witness :
    lookupKV (get_cache_key "gemini-2.0-flash-exp" "prompt")
        [("gemini-2.0-flash-expprompt", "cached text")] = some "cached text" ∧
    cached_generate_content "gemini-2.0-flash-exp" "prompt" none true 5 120
        [("gemini-2.0-flash-expprompt", "cached text")]
        (fun _ => ⟨0, 0, 0, .ok "fresh"⟩) =
      ⟨.succeeded "cached text", 0, [], [("gemini-2.0-flash-expprompt", "cached text")], false⟩ :=
  ⟨by decide,
    C7_cache_hit_short_circuits "gemini-2.0-flash-exp" "prompt" none 5 120
      [("gemini-2.0-flash-expprompt", "cached text")]
      (fun _ => ⟨0, 0, 0, .ok "fresh"⟩) "cached text" (by decide)⟩

/-- C10: with `cache_enabled=False` the invoker performs exactly one direct
model call and mirrors its result; it never reads or writes the cache, never
applies the global throttle delay, and performs no retry, backoff or timeout
enforcement, for every model, prompt, retry bound and timeout. -/
theorem C10_cache_disabled_direct_call (modelName prompt : String) (sn : Option Nat)
    (maxRetries timeout : Nat) (cache : List (String × String)) (attempts : Nat → Attempt) :
    cached_generate_content modelName prompt sn false maxRetries timeout cache attempts =
      ⟨match (attempts 0).outcome with
        | .ok t => .succeeded t
        | .error e => .failed e, 1, [], cache, false⟩ := by
  cases h : (attempts 0).outcome <;> simp [cached_generate_content, h]

/-- C5 counterexample: a model call boundary that raises a non-rate-limit
`TimeoutError` is not re-raised as that error — the invoker substitutes its
own `TimeoutError` with a different message (one attempt is still made). -/
theorem C5_counterexample :
    (cached_generate_content "m" "p" none true 5 120 []
        (fun _ => ⟨0, 0, 0, .error (.timeoutError "upstream deadline exceeded")⟩)).outcome
      ≠ CGCOutcome.failed (.timeoutError "upstream deadline exceeded") ∧
    cached_generate_content "m" "p" none true 5 120 []
        (fun _ => ⟨0, 0, 0, .error (.timeoutError "upstream deadline exceeded")⟩) =
      ⟨.failed (.timeoutError (timeoutMsg 120)), 1, [], [], true⟩ := by
  constructor
  · decide
  · decide

/-- C5 (amended): on a cache miss, if the first model call raises an error
that is not a rate-limit signal (within budget), the invoker fails after
exactly one model-call attempt with no backoff sleep; the error itself is
re-raised when it is not a timeout error, and is replaced by the invoker's
own `TimeoutError` when it is. -/
theorem C5_non_rate_limit_single_attempt (modelName prompt : String) (sn : Option Nat)
    (maxRetries timeout : Nat) (cache : List (String × String)) (attempts : Nat → Attempt)
    (e : PyErr)
    (hmiss : lookupKV (get_cache_key modelName prompt) cache = none)
    (hmr : 1 ≤ maxRetries)
    (hout : (attempts 0).outcome = .error e)
    (h429 : is429 e = false)
    (h1 : (attempts 0).tCheck ≤ timeout)
    (h2 : (attempts 0).tAttempt < timeout)
    (h3 : (attempts 0).tExcept ≤ timeout) :
    cached_generate_content modelName prompt sn true maxRetries timeout cache attempts =
      ⟨.failed (if e.isTimeout then .timeoutError (timeoutMsg timeout) else e),
        1, [], cache, true⟩ := by
  obtain ⟨mr, rfl⟩ : ∃ mr, maxRetries = mr + 1 := ⟨maxRetries - 1, by omega⟩
  rw [cached_generate_content_miss modelName prompt sn (mr + 1) timeout cache attempts hmiss]
  cases he : e.isTimeout with
  | false =>
    rw [cgcLoop_raise attempts timeout (mr + 1) (get_cache_key modelName prompt) cache mr 0 e
      h1 h2 h3 hout he (by rw [h429]; rfl)]
    simp
  | true =>
    rw [cgcLoop_timeout_like attempts timeout (mr + 1) (get_cache_key modelName prompt) cache mr 0 e
      h1 h2 hout (by rw [he]; rfl)]
    simp

/-- Witness for `C5_non_rate_limit_single_attempt` at a concrete non-rate-limit
upstream error. -/
theorem C5_non_rate_limit_single_attempt_witness :
    cached_generate_content "m" "p" none true 5 120 []
        (fun _ => ⟨0, 0, 0, .error (.otherError "500 internal error")⟩) =
      ⟨.failed (if (PyErr.otherError "500 internal error").isTimeout
          then .timeoutError (timeoutMsg 120) else .otherError "500 internal error"),
        1, [], [], true⟩ :=
  C5_non_rate_limit_single_attempt "m" "p" none 5 120 []
    (fun _ => ⟨0, 0, 0, .error (.otherError "500 internal error")⟩)
    (.otherError "500 internal error") (by decide) (by decide) (by decide) (by decide)
    (by decide) (by decide) (by decide)

/-- C2 counterexample: with `maxRetries = 5` and five consecutive rate-limit
responses, the final rate-limit error propagates out of the invoker — the
backoff loop does not absorb a run of `maxRetries` consecutive rate-limit
failures. -/
theorem C2_counterexample :
    (cached_generate_content "m" "p" none true 5 120 []
        (fun _ => ⟨0, 0, 0, .error (.otherError "429 Resource exhausted")⟩)).outcome
      = CGCOutcome.failed (.otherError "429 Resource exhausted") ∧
    is429 (.otherError "429 Resource exhausted") = true := by
  constructor
  · decide
  · decide

/-- C2 (amended): on a cache miss, any run of at most `maxRetries - 1`
consecutive in-budget rate-limit failures followed by an in-budget success is
fully absorbed by the backoff loop: the invoker returns the successful text
and no rate-limit error escapes. -/
theorem C2_rate_limit_absorbed_below_max (modelName prompt : String) (sn : Option Nat)
    (maxRetries timeout : Nat) (cache : List (String × String)) (attempts : Nat → Attempt)
    (k : Nat) (t : String)
    (hmiss : lookupKV (get_cache_key modelName prompt) cache = none)
    (hk : k < maxRetries)
    (h429 : ∀ i, i < k → ∃ m, (attempts i).outcome = .error (.otherError m) ∧
        is429 (.otherError m) = true ∧ (attempts i).tCheck ≤ timeout ∧
        (attempts i).tAttempt < timeout ∧ (attempts i).tExcept ≤ timeout)
    (hok : (attempts k).outcome = .ok t)
    (h1 : (attempts k).tCheck ≤ timeout)
    (h2 : (attempts k).tAttempt < timeout) :
    (cached_generate_content modelName prompt sn true maxRetries timeout cache attempts).outcome =
      .succeeded t := by
  rw [cached_generate_content_miss modelName prompt sn maxRetries timeout cache attempts hmiss]
  refine cgcLoop_absorbs attempts timeout maxRetries (get_cache_key modelName prompt) t
    k maxRetries 0 cache (by omega) hk ?_ ?_ ?_ ?_
  · intro i hi
    simpa using h429 i hi
  · simpa using hok
  · simpa using h1
  · simpa using h2

/-- Witness for `C2_rate_limit_absorbed_below_max`: two consecutive rate-limit
responses then a success, with `maxRetries = 5`. -/
theorem C2_rate_limit_absorbed_below_max_witness :
    (cached_generate_content "m" "p" none true 5 120 []
        (fun i => if i < 2 then ⟨0, 0, 0, .error (.otherError "429 Too Many Requests")⟩
          else ⟨0, 0, 0, .ok "final text"⟩)).outcome = .succeeded "final text" :=
  C2_rate_limit_absorbed_below_max "m" "p" none 5 120 []
    (fun i => if i < 2 then ⟨0, 0, 0, .error (.otherError "429 Too Many Requests")⟩
      else ⟨0, 0, 0, .ok "final text"⟩)
    2 "final text" (by decide) (by decide)
    (fun i hi => ⟨"429 Too Many Requests", by interval_cases i <;> decide⟩)
    (by decide) (by decide) (by decide)

/-! ## Helper lemmas: the section pipeline -/

theorem lookupKV_upsert (k v : String) (st : List (String × String)) :
    lookupKV k (upsert k v st) = some v := by
  induction st with
  | nil => simp [upsert, lookupKV]
  | cons p rest ih =>
    obtain ⟨k', v'⟩ := p
    rw [upsert]
    by_cases h : k' = k
    · rw [if_pos h, lookupKV, if_pos rfl]
    · rw [if_neg h, lookupKV, if_neg h]
      exact ih

theorem stageStep_error (num : Nat) (title : String) (e : Nat) (m : PyErr) (b : String) :
    stageStep num title e (Except.error m) b = b := by
  simp only [stageStep]
  split <;> rfl

theorem stageStep_skip (num : Nat) (title : String) (e : Nat)
    (o : Except PyErr String) (b : String) (h : section_timeout < e) :
    stageStep num title e o b = b := by
  simp only [stageStep]
  rw [if_pos h]

theorem stageStep_ok (num : Nat) (title : String) (e : Nat) (c b : String)
    (h : e ≤ section_timeout) :
    stageStep num title e (Except.ok c) b = repair_html c num title := by
  simp only [stageStep]
  rw [if_neg (by omega)]

theorem process_section_genfail (num : Nat) (title : String) (iters : Int)
    (env : SectionEnv) (e : PyErr)
    (hmiss : truthy (load_section env.store (toString num ++ "_refined")) = false)
    (hgen : env.genOutcome = .error e) :
    process_section num title iters env =
      ⟨api_error_fragment num title e.msg, env.store, 1, [], false⟩ := by
  rw [process_section]
  simp [hmiss, hgen]

theorem process_section_timeout (num : Nat) (title : String) (iters : Int)
    (env : SectionEnv) (raw : String)
    (hmiss : truthy (load_section env.store (toString num ++ "_refined")) = false)
    (hgen : env.genOutcome = .ok raw)
    (ht : section_timeout < env.tGen) :
    process_section num title iters env =
      ⟨timeout_fragment num title, env.store, 1, [], true⟩ := by
  rw [process_section]
  simp [hmiss, hgen, ht]

theorem process_section_zero_iter (num : Nat) (title : String) (iters : Int)
    (env : SectionEnv) (raw : String)
    (hmiss : truthy (load_section env.store (toString num ++ "_refined")) = false)
    (hgen : env.genOutcome = .ok raw)
    (ht : env.tGen ≤ section_timeout)
    (hiter : iters ≤ 0) :
    process_section num title iters env =
      ⟨repair_html (repair_html raw num title) num title,
        save_section (save_section env.store (toString num) (repair_html raw num title))
          (toString num ++ "_refined") (repair_html (repair_html raw num title) num title),
        1, [], false⟩ := by
  rw [process_section]
  have ht' : ¬(section_timeout < env.tGen) := by omega
  simp [hmiss, hgen, ht', hiter]

theorem process_section_refine (num : Nat) (title : String) (iters : Int)
    (env : SectionEnv) (raw : String)
    (hmiss : truthy (load_section env.store (toString num ++ "_refined")) = false)
    (hgen : env.genOutcome = .ok raw)
    (ht : env.tGen ≤ section_timeout)
    (hiter : 0 < iters) :
    process_section num title iters env =
      ⟨repair_html (stageStep num title env.tQuestion env.questionOutcome
          (stageStep num title env.tInsight env.insightOutcome
            (stageStep num title env.tFact env.factOutcome (repair_html raw num title))))
          num title,
        save_section (save_section env.store (toString num) (repair_html raw num title))
          (toString num ++ "_refined")
          (repair_html (stageStep num title env.tQuestion env.questionOutcome
            (stageStep num title env.tInsight env.insightOutcome
              (stageStep num title env.tFact env.factOutcome (repair_html raw num title))))
            num title),
        1,
        (if section_timeout < env.tFact then [] else ["fact"]) ++
          (if section_timeout < env.tInsight then [] else ["insight"]) ++
          (if section_timeout < env.tQuestion then [] else ["question"]),
        false⟩ := by
  rw [process_section]
  have ht' : ¬(section_timeout < env.tGen) := by omega
  have hiter' : ¬(iters ≤ 0) := by omega
  simp [hmiss, hgen, ht', hiter']

/-! ## Claims about the section pipeline -/

/-- C1: with `refinementIterations = 0` and a successful initial generation,
the pipeline returns `repair(initialGeneratedContent)` exactly (the source
applies `repair_html` twice, and the repairer is idempotent), persists it as
the `_refined` artifact, and invokes no refinement stage. -/
theorem C1_zero_iterations_returns_repaired_initial (num : Nat) (title : String)
    (env : SectionEnv) (raw : String)
    (hmiss : truthy (load_section env.store (toString num ++ "_refined")) = false)
    (hgen : env.genOutcome = .ok raw)
    (ht : env.tGen ≤ section_timeout) :
    (process_section num title 0 env).result = repair_html raw num title ∧
    lookupKV (toString num ++ "_refined") (process_section num title 0 env).store =
      some (repair_html raw num title) ∧
    (process_section num title 0 env).stagesRun = [] := by
  have heq := process_section_zero_iter num title 0 env raw hmiss hgen ht (by omega)
  rw [heq, repair_html_idem raw num title]
  exact ⟨rfl, lookupKV_upsert _ _ _, rfl⟩

/-- Witness for `C1_zero_iterations_returns_repaired_initial` on a concrete
empty store and generation output. -/
theorem C1_zero_iterations_returns_repaired_initial_witness :
    (process_section 1 "Overview" 0
        ⟨[], .ok "raw text", .ok "f", .ok "i", .ok "q", 0, 0, 0, 0⟩).result =
      repair_html "raw text" 1 "Overview" ∧
    lookupKV (toString 1 ++ "_refined")
        (process_section 1 "Overview" 0
          ⟨[], .ok "raw text", .ok "f", .ok "i", .ok "q", 0, 0, 0, 0⟩).store =
      some (repair_html "raw text" 1 "Overview") ∧
    (process_section 1 "Overview" 0
        ⟨[], .ok "raw text", .ok "f", .ok "i", .ok "q", 0, 0, 0, 0⟩).stagesRun = [] :=
  C1_zero_iterations_returns_repaired_initial 1 "Overview"
    ⟨[], .ok "raw text", .ok "f", .ok "i", .ok "q", 0, 0, 0, 0⟩ "raw text"
    (by decide) rfl (by decide)

/-- C4 counterexample: an empty-string refined artifact exists in the store,
yet the pipeline does not return it and does invoke the model call boundary —
Python truthiness treats the empty artifact as absent. -/
theorem C4_counterexample :
    load_section [("1_refined", "")] (toString 1 ++ "_refined") = some "" ∧
    (process_section 1 "T" 0
        ⟨[("1_refined", "")], .ok "regen", .ok "f", .ok "i", .ok "q", 0, 0, 0, 0⟩).generationCalls
      = 1 ∧
    (process_section 1 "T" 0
        ⟨[("1_refined", "")], .ok "regen", .ok "f", .ok "i", .ok "q", 0, 0, 0, 0⟩).result
      ≠ "" := by
  refine ⟨by decide, by decide, by decide⟩

/-- C4 (amended): for every topic whose refined artifact exists in the store
and is non-empty, re-running the pipeline returns the stored content with zero
invocations of the model call boundary, no stage runs, and an unchanged
store — the check precedes any generation, repair or refinement step. -/
theorem C4_nonempty_refined_artifact_short_circuits (num : Nat) (title : String)
    (iters : Int) (env : SectionEnv) (s : String)
    (h : load_section env.store (toString num ++ "_refined") = some s)
    (hne : s ≠ "") :
    process_section num title iters env = ⟨s, env.store, 0, [], false⟩ := by
  rw [process_section]
  have ht : truthy (load_section env.store (toString num ++ "_refined")) = true := by
    rw [h, truthy]
    rw [Bool.not_eq_true', Bool.eq_false_iff]
    intro hemp
    exact hne ((String.isEmpty_iff s).mp hemp)
  rw [if_pos ht, h]
  rfl

/-- Witness for `C4_nonempty_refined_artifact_short_circuits` on a concrete
store holding a non-empty refined artifact. -/
theorem C4_nonempty_refined_artifact_short_circuits_witness :
    process_section 2 "Risks" 1
        ⟨[("2_refined", "stored content")], .ok "regen", .ok "f", .ok "i", .ok "q", 0, 0, 0, 0⟩ =
      ⟨"stored content", [("2_refined", "stored content")], 0, [], false⟩ :=
  C4_nonempty_refined_artifact_short_circuits 2 "Risks" 1
    ⟨[("2_refined", "stored content")], .ok "regen", .ok "f", .ok "i", .ok "q", 0, 0, 0, 0⟩
    "stored content" (by decide) (by decide)

/-- C3 counterexample: the soft timeout is exceeded at every refinement-stage
checkpoint (elapsed 601s > 600s), yet the topic is not aborted into the error
fallback: the outer timeout handler never fires, the result is not the
timeout fragment, the pipeline persists a refined artifact and merely skips
the stages. -/
theorem C3_counterexample :
    (process_section 1 "T" 1
        ⟨[], .ok "raw", .ok "f", .ok "i", .ok "q", 0, 601, 601, 601⟩).timedOut = false ∧
    (process_section 1 "T" 1
        ⟨[], .ok "raw", .ok "f", .ok "i", .ok "q", 0, 601, 601, 601⟩).result
      ≠ timeout_fragment 1 "T" ∧
    lookupKV (toString 1 ++ "_refined")
        (process_section 1 "T" 1
          ⟨[], .ok "raw", .ok "f", .ok "i", .ok "q", 0, 601, 601, 601⟩).store =
      some ((process_section 1 "T" 1
        ⟨[], .ok "raw", .ok "f", .ok "i", .ok "q", 0, 601, 601, 601⟩).result) ∧
    (process_section 1 "T" 1
        ⟨[], .ok "raw", .ok "f", .ok "i", .ok "q", 0, 601, 601, 601⟩).stagesRun = [] := by
  refine ⟨by decide, by decide, by decide, by decide⟩

/-- C3 (amended): a soft-timeout excess detected at the checkpoint after
initial generation aborts the topic into the error-fallback fragment with
nothing persisted; a soft-timeout excess detected at a refinement-stage
checkpoint is swallowed by that stage's handler — the stage is skipped with
`bestContent` unchanged and the pipeline persists and returns normally. -/
theorem C3_timeout_aborts_only_before_refinement (num : Nat) (title : String)
    (iters : Int) (env : SectionEnv) (raw : String)
    (hmiss : truthy (load_section env.store (toString num ++ "_refined")) = false)
    (hgen : env.genOutcome = .ok raw) :
    (section_timeout < env.tGen →
      process_section num title iters env =
        ⟨timeout_fragment num title, env.store, 1, [], true⟩) ∧
    (env.tGen ≤ section_timeout → 0 < iters → section_timeout < env.tFact →
      (process_section num title iters env).timedOut = false ∧
      (process_section num title iters env).result =
        repair_html (stageStep num title env.tQuestion env.questionOutcome
          (stageStep num title env.tInsight env.insightOutcome (repair_html raw num title)))
          num title ∧
      lookupKV (toString num ++ "_refined") (process_section num title iters env).store =
        some ((process_section num title iters env).result)) := by
  constructor
  · intro ht
    exact process_section_timeout num title iters env raw hmiss hgen ht
  · intro ht hiter htf
    have heq := process_section_refine num title iters env raw hmiss hgen ht hiter
    rw [heq, stageStep_skip num title env.tFact env.factOutcome (repair_html raw num title) htf]
    exact ⟨rfl, rfl, lookupKV_upsert _ _ _⟩

/-- Witness for `C3_timeout_aborts_only_before_refinement`: with the fact
checkpoint past the soft timeout, the pipeline neither times out nor aborts
and still persists its result. -/
theorem C3_timeout_aborts_only_before_refinement_witness :
    (process_section 1 "Overview" 1
        ⟨[], .ok "raw", .ok "f", .ok "i", .ok "q", 0, 601, 0, 0⟩).timedOut = false ∧
    lookupKV (toString 1 ++ "_refined")
        (process_section 1 "Overview" 1
          ⟨[], .ok "raw", .ok "f", .ok "i", .ok "q", 0, 601, 0, 0⟩).store =
      some ((process_section 1 "Overview" 1
        ⟨[], .ok "raw", .ok "f", .ok "i", .ok "q", 0, 601, 0, 0⟩).result) :=
  ⟨((C3_timeout_aborts_only_before_refinement 1 "Overview" 1
      ⟨[], .ok "raw", .ok "f", .ok "i", .ok "q", 0, 601, 0, 0⟩ "raw" (by decide) rfl).2
      (by decide) (by decide) (by decide)).1,
    ((C3_timeout_aborts_only_before_refinement 1 "Overview" 1
      ⟨[], .ok "raw", .ok "f", .ok "i", .ok "q", 0, 601, 0, 0⟩ "raw" (by decide) rfl).2
      (by decide) (by decide) (by decide)).2.2⟩

/-- C6: when refinement runs, the pipeline's result is the fixed fact,
insight, question fold of the stage steps, persisted under the `_refined`
key; each stage step leaves the best content exactly unchanged when the stage
raises (any error) or is timeout-skipped, and a completed stage's repaired
output unconditionally becomes the new best content — in all cases the
remaining stages still run in order and the pipeline persists and returns. -/
theorem C6_stage_isolation (num : Nat) (title : String) (iters : Int)
    (env : SectionEnv) (raw : String)
    (hmiss : truthy (load_section env.store (toString num ++ "_refined")) = false)
    (hgen : env.genOutcome = .ok raw)
    (ht : env.tGen ≤ section_timeout)
    (hiter : 0 < iters) :
    (process_section num title iters env).result =
      repair_html (stageStep num title env.tQuestion env.questionOutcome
        (stageStep num title env.tInsight env.insightOutcome
          (stageStep num title env.tFact env.factOutcome (repair_html raw num title))))
        num title ∧
    lookupKV (toString num ++ "_refined") (process_section num title iters env).store =
      some ((process_section num title iters env).result) ∧
    (∀ e m b, stageStep num title e (Except.error m) b = b) ∧
    (∀ e (o : Except PyErr String) b, section_timeout < e → stageStep num title e o b = b) ∧
    (∀ e c b, e ≤ section_timeout →
      stageStep num title e (Except.ok c) b = repair_html c num title) := by
  have heq := process_section_refine num title iters env raw hmiss hgen ht hiter
  rw [heq]
  exact ⟨rfl, lookupKV_upsert _ _ _,
    fun e m b => stageStep_error num title e m b,
    fun e o b h => stageStep_skip num title e o b h,
    fun e c b h => stageStep_ok num title e c b h⟩

/-- Witness for `C6_stage_isolation`: a run whose fact stage raises while the
other stages complete. -/
theorem C6_stage_isolation_witness :
    (process_section 1 "Overview" 1
        ⟨[], .ok "raw", .error (.otherError "500 fail"), .ok "insight text", .ok "question text",
          0, 0, 0, 0⟩).result =
      repair_html (stageStep 1 "Overview" 0 (.ok "question text")
        (stageStep 1 "Overview" 0 (.ok "insight text")
          (stageStep 1 "Overview" 0 (.error (.otherError "500 fail"))
            (repair_html "raw" 1 "Overview")))) 1 "Overview" ∧
    lookupKV (toString 1 ++ "_refined")
        (process_section 1 "Overview" 1
          ⟨[], .ok "raw", .error (.otherError "500 fail"), .ok "insight text", .ok "question text",
            0, 0, 0, 0⟩).store =
      some ((process_section 1 "Overview" 1
        ⟨[], .ok "raw", .error (.otherError "500 fail"), .ok "insight text", .ok "question text",
          0, 0, 0, 0⟩).result) :=
  ⟨(C6_stage_isolation 1 "Overview" 1
      ⟨[], .ok "raw", .error (.otherError "500 fail"), .ok "insight text", .ok "question text",
        0, 0, 0, 0⟩ "raw" (by decide) rfl (by decide) (by decide)).1,
    (C6_stage_isolation 1 "Overview" 1
      ⟨[], .ok "raw", .error (.otherError "500 fail"), .ok "insight text", .ok "question text",
        0, 0, 0, 0⟩ "raw" (by decide) rfl (by decide) (by decide)).2.1⟩

/-! ## Claim about the structural repairer -/

/-- C8: the structural repairer is idempotent — for every input markup string
and every topic id and title, `repair(repair(x)) = repair(x)`. -/
theorem C8_repair_idempotent (x : String) (num : Nat) (title : String) :
    repair_html (repair_html x num title) num title = repair_html x num title :=
  repair_html_idem x num title

/-! ## Claim about the concurrency controller -/

theorem inCall_le_active (s : PoolState) : inCallCount s ≤ activeCount s := by
  induction s with
  | nil => simp [inCallCount, activeCount]
  | cons t rest ih =>
    rw [inCallCount, List.countP_cons]
    rw [activeCount, List.countP_cons]
    rw [inCallCount, activeCount] at ih
    have hle : (if isInCall t then 1 else 0) ≤ (if isActive t then 1 else 0) := by
      cases t with
      | pending => simp [isInCall, isActive]
      | done => simp [isInCall, isActive]
      | active b => cases b <;> simp [isInCall, isActive]
    omega

theorem activeCount_step (W : Nat) {s s' : PoolState} (h : PoolStep W s s')
    (hs : activeCount s ≤ W) : activeCount s' ≤ W := by
  cases h with
  | start l r hlt =>
    simp [activeCount, List.countP_append, List.countP_cons, isActive] at hlt hs ⊢
    omega
  | enterCall l r =>
    simp [activeCount, List.countP_append, List.countP_cons, isActive] at hs ⊢
    omega
  | exitCall l r =>
    simp [activeCount, List.countP_append, List.countP_cons, isActive] at hs ⊢
    omega
  | finish l r =>
    simp [activeCount, List.countP_append, List.countP_cons, isActive] at hs ⊢
    omega

theorem activeCount_init (n : Nat) : activeCount (initPool n) = 0 := by
  induction n with
  | zero => rfl
  | succ m ih =>
    rw [initPool, List.replicate_succ, activeCount, List.countP_cons]
    rw [initPool, activeCount] at ih
    simp [isActive, ih]

theorem poolInvariant (W n : Nat) (s : PoolState) (h : PoolReachable W n s) :
    activeCount s ≤ W := by
  rw [PoolReachable] at h
  induction h with
  | refl => rw [activeCount_init]; omega
  | tail _ hstep ih => exact activeCount_step W hstep ih

/-- C9: in every reachable state of a run of `n` topics on a pool of
`W < n` workers, at most `W` section pipelines are concurrently inside a
model-call-boundary invocation. -/
theorem C9_bounded_in_call (W n : Nat) (s : PoolState) (_hWn : W < n)
    (h : PoolReachable W n s) : inCallCount s ≤ W :=
  le_trans (inCall_le_active s) (poolInvariant W n s h)

/-- Witness for `C9_bounded_in_call`: a single-worker two-topic run reaching a
state with one pipeline inside the model call boundary. -/
theorem C9_bounded_in_call_witness :
    (1 : Nat) < 2 ∧
    inCallCount [TaskState.active true, TaskState.pending] ≤ 1 :=
  ⟨by decide,
    C9_bounded_in_call 1 2 [TaskState.active true, TaskState.pending] (by decide)
      (Relation.ReflTransGen.tail
        (Relation.ReflTransGen.tail Relation.ReflTransGen.refl
          (PoolStep.start [] [TaskState.pending] (by decide)))
        (PoolStep.enterCall [] [TaskState.pending]))⟩
